import Mathlib

/-!
Verification of the hover / color-picker subsystem of the editor repository.

The definitions below are a shallow embedding of the TypeScript sources:

* the input surfaces (SaturationBox, Strip, OpacityStrip, HueStrip) and the
  abstract color-picker body of the color-picker widget file,
* the hover-variant and standalone-variant editor-sync logic
  (HoverColorPicker, StandaloneColorPicker, AbstractColorPicker),
* the hover controller (ModesHoverController) of the hover contribution,
* the accessible-view providers (HoverAccessibleView, HoverAccessibilityHelp).

Pixel coordinates and color components are modelled as rationals; where
JavaScript arithmetic can produce NaN or infinities (division by a zero
measured dimension) an explicit extended number type JSNum is used, mirroring
IEEE semantics of the exact expressions appearing in the source.
-/

/-! ## JavaScript numbers for the pointer-to-value computations -/

/-- A JavaScript number as produced by the pointer-mapping expressions:
either finite (a rational), an infinity, or NaN. -/
inductive JSNum where
  | nan : JSNum
  | posInf : JSNum
  | negInf : JSNum
  | fin : ℚ → JSNum
deriving DecidableEq, Repr

/-- JavaScript division a / b for finite operands; measured dimensions are
non-negative zeros, so division by zero follows the +0 denominator rules:
0/0 is NaN, a/0 is +Infinity for a > 0 and -Infinity for a < 0. -/
def jsDivFin (a b : ℚ) : JSNum :=
  if b = 0 then
    if a = 0 then JSNum.nan
    else if 0 < a then JSNum.posInf
    else JSNum.negInf
  else JSNum.fin (a / b)

/-- JavaScript subtraction 1 - x. -/
def jsOneSub : JSNum → JSNum
  | JSNum.nan => JSNum.nan
  | JSNum.posInf => JSNum.negInf
  | JSNum.negInf => JSNum.posInf
  | JSNum.fin q => JSNum.fin (1 - q)

/-- JavaScript Math.min(1, x): NaN absorbs. -/
def jsMinOne : JSNum → JSNum
  | JSNum.nan => JSNum.nan
  | JSNum.posInf => JSNum.fin 1
  | JSNum.negInf => JSNum.negInf
  | JSNum.fin q => JSNum.fin (min 1 q)

/-- JavaScript Math.max(0, x): NaN absorbs. -/
def jsMaxZero : JSNum → JSNum
  | JSNum.nan => JSNum.nan
  | JSNum.posInf => JSNum.posInf
  | JSNum.negInf => JSNum.fin 0
  | JSNum.fin q => JSNum.fin (max 0 q)

/-- The clamping pattern Math.max(0, Math.min(1, x)) used by both surfaces. -/
def clamp01 (x : JSNum) : JSNum := jsMaxZero (jsMinOne x)

/-- Whether a JSNum is a finite value inside the closed unit interval. -/
def inUnit : JSNum → Bool
  | JSNum.fin q => decide (0 ≤ q ∧ q ≤ 1)
  | _ => false

/-- Saturation computed by SaturationBox.onDidChangePosition:
Math.max(0, Math.min(1, left / this.width)). -/
def saturationFromPointer (left width : ℚ) : JSNum :=
  clamp01 (jsDivFin left width)

/-- Value computed by SaturationBox.onDidChangePosition:
Math.max(0, Math.min(1, 1 - (top / this.height))). -/
def valueFromPointer (top height : ℚ) : JSNum :=
  clamp01 (jsOneSub (jsDivFin top height))

/-- Value computed by Strip.onDidChangeTop:
Math.max(0, Math.min(1, 1 - (top / this.height))). -/
def stripValueFromTop (top height : ℚ) : JSNum :=
  clamp01 (jsOneSub (jsDivFin top height))

/-! ## Hue mapping (AbstractColorPickerBody.onDidHueChange, HueStrip.getValue) -/

/-- Hue stored into the model by AbstractColorPickerBody.onDidHueChange:
h = (1 - value) * 360, remapped to 0 when it equals 360. -/
def onDidHueChangeStoredHue (value : ℚ) : ℚ :=
  let h := (1 - value) * 360
  if h = 360 then 0 else h

/-- HueStrip.getValue: 1 - (color.hsva.h / 360). -/
def hueStripGetValue (h : ℚ) : ℚ :=
  1 - h / 360

/-! ## Drag-sequence event traces (SaturationBox.onPointerDown, Strip.onPointerDown) -/

/-- Events a SaturationBox emits: continuous preview changes and the commit
event fired on pointer release. -/
inductive BoxEvent where
  | didChange : JSNum → JSNum → BoxEvent
  | colorFlushed : BoxEvent
deriving DecidableEq, Repr

/-- Events a Strip emits. -/
inductive StripEvent where
  | didChange : JSNum → StripEvent
  | colorFlushed : StripEvent
deriving DecidableEq, Repr

/-- The event emitted by SaturationBox.onDidChangePosition for a local
pointer coordinate. -/
def boxDidChangeEvent (left top width height : ℚ) : BoxEvent :=
  BoxEvent.didChange (saturationFromPointer left width) (valueFromPointer top height)

/-- Trace of events emitted over one full drag sequence on a SaturationBox
(pointer-down, the pointer-moves delivered by the global pointer monitor,
pointer-up). Per SaturationBox.onPointerDown: if the target is not an Element
nothing happens; otherwise the initial position is processed unless the
target is the selection element, every monitored move is processed, and the
document-level pointer-up listener fires onColorFlushed once. -/
def saturationBoxDragTrace (targetIsElement targetIsSelection : Bool)
    (downLeft downTop : ℚ) (moves : List (ℚ × ℚ)) (width height : ℚ) :
    List BoxEvent :=
  if targetIsElement then
    (if targetIsSelection then [] else [boxDidChangeEvent downLeft downTop width height])
      ++ moves.map (fun m => boxDidChangeEvent m.1 m.2 width height)
      ++ [BoxEvent.colorFlushed]
  else []

/-- Trace of events emitted over one full drag sequence on a Strip, per
Strip.onPointerDown: initial top processed unless the target is the slider,
each monitored move processed, pointer-up fires onColorFlushed once. -/
def stripDragTrace (targetIsElement targetIsSlider : Bool)
    (downTop : ℚ) (moves : List ℚ) (height : ℚ) : List StripEvent :=
  if targetIsElement then
    (if targetIsSlider then [] else [StripEvent.didChange (stripValueFromTop downTop height)])
      ++ moves.map (fun t => StripEvent.didChange (stripValueFromTop t height))
      ++ [StripEvent.colorFlushed]
  else []

/-- Whether a box event is the commit event. -/
def isBoxFlushed : BoxEvent → Bool
  | BoxEvent.colorFlushed => true
  | _ => false

/-- Whether a strip event is the commit event. -/
def isStripFlushed : StripEvent → Bool
  | StripEvent.colorFlushed => true
  | _ => false

/-! ## Model-driven repaint callbacks (onDidChangeColor of the surfaces) -/

/-- An HSVA color as stored by the picker model. -/
structure HSVAq where
  h : ℚ
  s : ℚ
  v : ℚ
  a : ℚ
deriving DecidableEq, Repr

/-- UI actions a surface can perform in reaction to a model color change. -/
inductive SurfaceAction where
  | paintAction : SurfaceAction
  | paintSelection : ℚ → ℚ → SurfaceAction
  | updateSliderPosition : ℚ → SurfaceAction
deriving DecidableEq, Repr

/-- SaturationBox.onDidChangeColor: if the pointer monitor is present and
monitoring, do nothing; otherwise repaint the canvas and the selection. -/
def saturationBoxOnDidChangeColor (isMonitoring : Bool) (c : HSVAq) :
    List SurfaceAction :=
  if isMonitoring then []
  else [SurfaceAction.paintAction, SurfaceAction.paintSelection c.s c.v]

/-- Strip.onDidChangeColor: computes getValue of the color and updates the
slider position. The source contains no monitoring guard; the isMonitoring
argument records the drag state of the surface and is ignored, mirroring
the source. -/
def stripOnDidChangeColor (isMonitoring : Bool) (getValue : HSVAq → ℚ)
    (c : HSVAq) : List SurfaceAction :=
  [SurfaceAction.updateSliderPosition (getValue c)]

/-- OpacityStrip.getValue: color.hsva.a. -/
def opacityGetValue (c : HSVAq) : ℚ := c.a

/-- HueStrip.getValue applied to a model color. -/
def hueGetValue (c : HSVAq) : ℚ := hueStripGetValue c.h

/-! ## Editor-sync logic of the color pickers (AbstractColorPicker and the
hover / standalone variants) -/

/-- A text range of the editor model. -/
structure Rng where
  startLineNumber : Int
  startColumn : Int
  endLineNumber : Int
  endColumn : Int
deriving DecidableEq, Repr

/-- A single edit operation: a range replaced by text. -/
structure TextEdit where
  range : Rng
  text : String
deriving DecidableEq, Repr

/-- A color presentation delivered by a document-color provider: a label, an
optional primary text edit, and optional additional edits. -/
structure Presentation where
  label : String
  textEdit : Option TextEdit
  additionalTextEdits : Option (List TextEdit)
deriving DecidableEq, Repr

/-- An RGBA color (components in 0..255 for r, g, b; alpha in 0..1). -/
structure RGBAq where
  r : ℚ
  g : ℚ
  b : ℚ
  a : ℚ
deriving DecidableEq, Repr

/-- The color information passed to getColorPresentations: the range plus
the color scaled into 0..1 channels. -/
structure ColorInfo where
  range : Rng
  red : ℚ
  green : ℚ
  blue : ℚ
  alpha : ℚ
deriving DecidableEq, Repr

/-- Primitive operations the picker performs against the editor and the
color provider, in the order they are issued. -/
inductive EditorOp where
  | fetchPresentations : ColorInfo → EditorOp
  | setTrackedRange : Rng → EditorOp
  | executeEdits : String → List TextEdit → EditorOp
  | pushUndoStop : EditorOp
  | readTrackedRange : EditorOp
deriving DecidableEq, Repr

/-- Number of pushUndoStop operations in a log. -/
def countUndoStops : List EditorOp → Nat
  | [] => 0
  | EditorOp.pushUndoStop :: rest => countUndoStops rest + 1
  | _ :: rest => countUndoStops rest

/-- Number of executeEdits operations in a log. -/
def countExecuteEdits : List EditorOp → Nat
  | [] => 0
  | EditorOp.executeEdits _ _ :: rest => countExecuteEdits rest + 1
  | _ :: rest => countExecuteEdits rest

/-- The operation log of AbstractColorPicker._updateColorPresentations: one
getColorPresentations round-trip for the given color and range, with the
channels divided by 255 as in the source. -/
def updateColorPresentationsOps (color : RGBAq) (range : Rng) : List EditorOp :=
  [EditorOp.fetchPresentations
    { range := range
      red := color.r / 255
      green := color.g / 255
      blue := color.b / 255
      alpha := color.a }]

/-- AbstractColorPicker._updateEditorModel: the primary edit is the
presentation's textEdit, or a replacement of the stored range by the label
when absent; any additional provider edits are appended; a tracked range is
created over the primary edit's range before the edit; executeEdits runs
once with all edits; one undo stop is pushed; the returned range is the
tracked range read back, or the replace range when unreadable. The tracked
range read-back of the text model is an input (trackedReadback). -/
def updateEditorModelRun (presentation : Presentation) (range : Rng)
    (trackedReadback : Option Rng) : List EditorOp × Rng :=
  let edit := presentation.textEdit.getD { range := range, text := presentation.label }
  let textEdits := edit :: presentation.additionalTextEdits.getD []
  let replaceRange := edit.range
  ([EditorOp.setTrackedRange replaceRange,
    EditorOp.executeEdits "colorpicker" textEdits,
    EditorOp.pushUndoStop,
    EditorOp.readTrackedRange],
   trackedReadback.getD replaceRange)

/-- The full reaction of HoverColorPicker._registerListeners to one
onColorFlushed event: first re-fetch the presentations for the flushed color
and the stored range, then run _updateEditorModel; the second component is
the new stored range. The presentation the model holds after the fetch and
the tracked-range read-back are inputs. -/
def hoverColorFlushedRun (color : RGBAq) (range : Rng)
    (presentation : Presentation) (trackedReadback : Option Rng) :
    List EditorOp × Rng :=
  let fetchOps := updateColorPresentationsOps color range
  let run := updateEditorModelRun presentation range trackedReadback
  (fetchOps ++ run.1, run.2)

/-! ## Buffer-change reentrancy of the hover-variant picker
(HoverColorPicker._registerListeners) -/

/-- The listener state of HoverColorPicker._registerListeners: the one-shot
editorUpdatedByColorPicker flag and whether the hover has been hidden. -/
structure HoverPickerState where
  editorUpdatedByColorPicker : Bool
  hoverHidden : Bool
deriving DecidableEq, Repr

/-- The onDidChangeModelContent listener: when the one-shot flag is set it is
merely cleared; otherwise the hover is hidden. -/
def hoverOnDidChangeModelContent (s : HoverPickerState) : HoverPickerState :=
  if s.editorUpdatedByColorPicker then
    { s with editorUpdatedByColorPicker := false }
  else
    { s with hoverHidden := true }

/-- Events observable by the hover-variant picker listeners: a color flush
(whose programmatic edit synchronously raises the picker's own buffer
content-change event) or a buffer content change of external origin. -/
inductive HoverPickerEvent where
  | flushColor : HoverPickerEvent
  | externalContentChange : HoverPickerEvent
deriving DecidableEq, Repr

/-- One step of the hover-variant picker listeners. On a flush the flag is
set immediately before the programmatic edit, and the content-change event
that edit raises is delivered to the listener synchronously. An external
content change only runs the listener. -/
def hoverPickerStep (s : HoverPickerState) : HoverPickerEvent → HoverPickerState
  | HoverPickerEvent.flushColor =>
      hoverOnDidChangeModelContent { s with editorUpdatedByColorPicker := true }
  | HoverPickerEvent.externalContentChange =>
      hoverOnDidChangeModelContent s

/-- The state of the listeners at registration time: the flag starts false
and the hover is shown. -/
def hoverPickerInit : HoverPickerState :=
  { editorUpdatedByColorPicker := false, hoverHidden := false }

/-! ## The hover controller (ModesHoverController) -/

/-- The controller state relevant to showing and hiding the widgets:
the mouse-button flag, the hover-clicked flag, the sticky flag, visibility of
the content and glyph widgets, and whether a color picker is open inside the
content widget (contentWidget non-null with a visible picker). -/
structure HoverCtlState where
  isMouseDown : Bool
  hoverClicked : Bool
  isCurrentSticky : Bool
  contentVisible : Bool
  glyphVisible : Bool
  colorPickerVisible : Bool
deriving DecidableEq, Repr

/-- ModesHoverController._hideWidgets: when the mouse is down, the hover was
clicked and the content widget's color picker is visible, return without
changing anything; otherwise clear the clicked and sticky flags and hide
both widgets. -/
def hideWidgets (s : HoverCtlState) : HoverCtlState :=
  if s.isMouseDown && s.hoverClicked && s.colorPickerVisible then s
  else
    { s with hoverClicked := false, isCurrentSticky := false,
             glyphVisible := false, contentVisible := false }

/-- The mouse-target types distinguished by the mouse-down handler. -/
inductive HoverTargetType where
  | contentWidgetTarget : HoverTargetType
  | overlayWidgetTarget : HoverTargetType
  | otherTarget : HoverTargetType
deriving DecidableEq, Repr

/-- The target detail distinguished by the mouse-down handler: the content
hover widget id, the glyph hover widget id, or anything else. -/
inductive HoverTargetDetail where
  | contentHoverWidgetId : HoverTargetDetail
  | glyphHoverWidgetId : HoverTargetDetail
  | otherDetail : HoverTargetDetail
deriving DecidableEq, Repr

/-- ModesHoverController._onEditorMouseDown: sets the mouse-down flag; a
mouse-down on the content hover widget sets the clicked flag and returns; a
mouse-down on the glyph overlay widget returns; otherwise the clicked flag
is cleared when the target is neither the overlay widget nor carries the
glyph widget id, and _hideWidgets runs. -/
def onEditorMouseDown (s : HoverCtlState) (t : HoverTargetType)
    (d : HoverTargetDetail) : HoverCtlState :=
  let s1 := { s with isMouseDown := true }
  if t = HoverTargetType.contentWidgetTarget ∧ d = HoverTargetDetail.contentHoverWidgetId then
    { s1 with hoverClicked := true }
  else if t = HoverTargetType.overlayWidgetTarget ∧ d = HoverTargetDetail.glyphHoverWidgetId then
    s1
  else
    let s2 :=
      if t ≠ HoverTargetType.overlayWidgetTarget ∧ d ≠ HoverTargetDetail.glyphHoverWidgetId then
        { s1 with hoverClicked := false }
      else s1
    hideWidgets s2

/-- ModesHoverController._onEditorMouseUp: clears the mouse-down flag. -/
def onEditorMouseUp (s : HoverCtlState) : HoverCtlState :=
  { s with isMouseDown := false }

/-- ModesHoverController._onEditorScrollChanged: when the scroll top or the
scroll left changed, run _hideWidgets. -/
def onEditorScrollChanged (s : HoverCtlState)
    (scrollTopChanged scrollLeftChanged : Bool) : HoverCtlState :=
  if scrollTopChanged || scrollLeftChanged then hideWidgets s else s

/-! ## The standalone color picker (StandaloneColorPicker) -/

/-- Events delivered to the standalone picker after construction: a model
color change, a model color flush, a buffer content change, and an explicit
invocation of updateEditorModel. -/
inductive StandaloneEvent where
  | didChangeColor : RGBAq → StandaloneEvent
  | colorFlushed : RGBAq → StandaloneEvent
  | contentChange : StandaloneEvent
  | invoke : StandaloneEvent
deriving DecidableEq, Repr

/-- The state of a StandaloneColorPicker: the stored _color field, hide
state, the number of presentation fetches issued, and the number of edit
transactions applied to the editor model. everFlushed is a history observer
recording whether any onColorFlushed event has occurred; it corresponds to
no field of the source. -/
structure StandaloneState where
  color : Option RGBAq
  hidden : Bool
  fetches : Nat
  edits : Nat
  everFlushed : Bool
deriving DecidableEq, Repr

/-- The state right after StandaloneColorPicker._registerListeners: the
stored color is initialized to the model's current color and one
presentation fetch has been issued. -/
def standaloneInit (c0 : RGBAq) : StandaloneState :=
  { color := some c0, hidden := false, fetches := 1, edits := 0,
    everFlushed := false }

/-- One step of the standalone picker. onDidChangeColor re-fetches the
presentations; onColorFlushed only records the flushed color; a buffer
content change hides the picker; updateEditorModel fetches the presentations
and applies the edit, but only when a stored color exists. -/
def standaloneStep (s : StandaloneState) : StandaloneEvent → StandaloneState
  | StandaloneEvent.didChangeColor _ => { s with fetches := s.fetches + 1 }
  | StandaloneEvent.colorFlushed c =>
      { s with color := some c, everFlushed := true }
  | StandaloneEvent.contentChange => { s with hidden := true }
  | StandaloneEvent.invoke =>
      match s.color with
      | some _ => { s with fetches := s.fetches + 1, edits := s.edits + 1 }
      | none => s

/-! ## Accessible-view providers (HoverAccessibleView, HoverAccessibilityHelp) -/

/-- A code editor, identified abstractly. -/
structure CodeEditor where
  id : Nat
deriving DecidableEq, Repr

/-- A hover controller attached to an editor, identified abstractly. -/
structure HoverCtl where
  id : Nat
deriving DecidableEq, Repr

/-- An accessible-view content provider instance. -/
structure AccessibleProvider where
  editorId : Nat
  controllerId : Nat
deriving DecidableEq, Repr

/-- The getProvider logic shared by HoverAccessibleView and
HoverAccessibilityHelp: take the active code editor, falling back to the
focused one; when neither exists, throw; when the editor has no hover
controller, return undefined; otherwise create the provider. The provider
construction is a parameter (the two classes build different providers). -/
def accessibleGetProvider (mk : CodeEditor → HoverCtl → AccessibleProvider)
    (activeEditor focusedEditor : Option CodeEditor)
    (controllerOf : CodeEditor → Option HoverCtl) :
    Except String (Option AccessibleProvider) :=
  match (match activeEditor with
         | some e => some e
         | none => focusedEditor) with
  | none => Except.error "No active or focused code editor"
  | some e =>
    match controllerOf e with
    | none => Except.ok none
    | some ctl => Except.ok (some (mk e ctl))

/-! ## Theorems -/

/-- C1: in the hover-variant color picker, the content-change event raised by
the picker's own flushed-induced edit does not hide the hover (and clears the
one-shot flag), while a content-change event of external origin hides it; in
particular after one own-edit event is consumed the very next external change
hides the picker. -/
theorem hover_picker_own_edit_reentrancy (s : HoverPickerState)
    (hflag : s.editorUpdatedByColorPicker = false) :
    ((hoverPickerStep s HoverPickerEvent.flushColor).hoverHidden = s.hoverHidden
      ∧ (hoverPickerStep s HoverPickerEvent.flushColor).editorUpdatedByColorPicker = false)
    ∧ (hoverPickerStep s HoverPickerEvent.externalContentChange).hoverHidden = true
    ∧ (hoverPickerStep (hoverPickerStep s HoverPickerEvent.flushColor)
        HoverPickerEvent.externalContentChange).hoverHidden = true := by
  simp [hoverPickerStep, hoverOnDidChangeModelContent, hflag]

/-- Witness for C1 at the initial listener state. -/
theorem hover_picker_own_edit_reentrancy_witness :
    (hoverPickerStep hoverPickerInit HoverPickerEvent.externalContentChange).hoverHidden = true :=
  (hover_picker_own_edit_reentrancy hoverPickerInit rfl).2.1

/-- C2: on a ColorModel flushed event the hover-variant sync logic first
re-fetches the provider's presentations for the current color and range, then
creates a tracked range over the replace range, applies the primary edit plus
all additional edits in one executeEdits call, pushes exactly one undo stop,
and stores the tracked range read back, falling back to the replace range. -/
theorem hover_flush_edit_transaction (color : RGBAq) (range : Rng)
    (p : Presentation) (readback : Option Rng) :
    (hoverColorFlushedRun color range p readback).1 =
      [EditorOp.fetchPresentations
          { range := range, red := color.r / 255, green := color.g / 255,
            blue := color.b / 255, alpha := color.a },
        EditorOp.setTrackedRange (p.textEdit.getD { range := range, text := p.label }).range,
        EditorOp.executeEdits "colorpicker"
          ((p.textEdit.getD { range := range, text := p.label })
            :: p.additionalTextEdits.getD []),
        EditorOp.pushUndoStop,
        EditorOp.readTrackedRange]
    ∧ countUndoStops (hoverColorFlushedRun color range p readback).1 = 1
    ∧ countExecuteEdits (hoverColorFlushedRun color range p readback).1 = 1
    ∧ (hoverColorFlushedRun color range p readback).2 =
        readback.getD (p.textEdit.getD { range := range, text := p.label }).range :=
  ⟨rfl, rfl, rfl, rfl⟩

/-- C4: a mouse-down on the content hover widget sets the mouse-down and
clicked flags and hides nothing, and any call of the hide routine in a state
where the mouse is down, the hover was clicked and the color picker is
visible leaves the whole state unchanged: both widgets stay shown and the
clicked and sticky flags keep their values. -/
theorem hide_guard_during_click_on_picker (s0 s : HoverCtlState)
    (hp : s0.colorPickerVisible = true)
    (h1 : s.isMouseDown = true) (h2 : s.hoverClicked = true)
    (h3 : s.colorPickerVisible = true) :
    ((onEditorMouseDown s0 HoverTargetType.contentWidgetTarget
        HoverTargetDetail.contentHoverWidgetId).isMouseDown = true
      ∧ (onEditorMouseDown s0 HoverTargetType.contentWidgetTarget
          HoverTargetDetail.contentHoverWidgetId).hoverClicked = true
      ∧ (onEditorMouseDown s0 HoverTargetType.contentWidgetTarget
          HoverTargetDetail.contentHoverWidgetId).contentVisible = s0.contentVisible
      ∧ (onEditorMouseDown s0 HoverTargetType.contentWidgetTarget
          HoverTargetDetail.contentHoverWidgetId).glyphVisible = s0.glyphVisible
      ∧ (onEditorMouseDown s0 HoverTargetType.contentWidgetTarget
          HoverTargetDetail.contentHoverWidgetId).colorPickerVisible = true)
    ∧ hideWidgets s = s := by
  constructor
  · simp [onEditorMouseDown, hp]
  · simp [hideWidgets, h1, h2, h3]

/-- Witness for C4 at a concrete clicked state with a visible picker. -/
theorem hide_guard_during_click_on_picker_witness :
    hideWidgets
      { isMouseDown := true, hoverClicked := true, isCurrentSticky := true,
        contentVisible := true, glyphVisible := false, colorPickerVisible := true } =
      { isMouseDown := true, hoverClicked := true, isCurrentSticky := true,
        contentVisible := true, glyphVisible := false, colorPickerVisible := true } :=
  (hide_guard_during_click_on_picker
    { isMouseDown := false, hoverClicked := false, isCurrentSticky := false,
      contentVisible := true, glyphVisible := false, colorPickerVisible := true }
    { isMouseDown := true, hoverClicked := true, isCurrentSticky := true,
      contentVisible := true, glyphVisible := false, colorPickerVisible := true }
    rfl rfl rfl rfl).2

/-- C5 is refuted: a scroll event whose scroll top changed does not hide the
widgets when the mouse is down after a click on the content hover widget and
the color picker is open — the hide routine's color-picker guard fires, so
hiding is not unconditional. -/
theorem scroll_hide_counterexample :
    (onEditorScrollChanged
      { isMouseDown := true, hoverClicked := true, isCurrentSticky := false,
        contentVisible := true, glyphVisible := true, colorPickerVisible := true }
      true false).contentVisible = true
    ∧ (onEditorScrollChanged
      { isMouseDown := true, hoverClicked := true, isCurrentSticky := false,
        contentVisible := true, glyphVisible := true, colorPickerVisible := true }
      true false).glyphVisible = true := by
  decide

/-- C5 (amended): a scroll event in which the scroll top or the scroll left
changed hides both widgets regardless of the sticky state, unless the mouse
is down with the hover clicked and the color picker visible, in which case
nothing is hidden. -/
theorem scroll_hides_unless_picker_click (s : HoverCtlState) (tc lc : Bool)
    (hch : (tc || lc) = true)
    (hexc : ¬(s.isMouseDown = true ∧ s.hoverClicked = true ∧ s.colorPickerVisible = true)) :
    (onEditorScrollChanged s tc lc).contentVisible = false
    ∧ (onEditorScrollChanged s tc lc).glyphVisible = false := by
  have hcond : (s.isMouseDown && s.hoverClicked && s.colorPickerVisible) = false := by
    cases hmd : s.isMouseDown <;> cases hc : s.hoverClicked <;>
      cases hcp : s.colorPickerVisible <;> simp_all
  simp [onEditorScrollChanged, hch, hideWidgets, hcond]

/-- Witness for the amended C5 at a sticky state with an open picker but no
click in progress. -/
theorem scroll_hides_unless_picker_click_witness :
    (onEditorScrollChanged
      { isMouseDown := false, hoverClicked := false, isCurrentSticky := true,
        contentVisible := true, glyphVisible := true, colorPickerVisible := true }
      true false).contentVisible = false
    ∧ (onEditorScrollChanged
      { isMouseDown := false, hoverClicked := false, isCurrentSticky := true,
        contentVisible := true, glyphVisible := true, colorPickerVisible := true }
      true false).glyphVisible = false :=
  scroll_hides_unless_picker_click
    { isMouseDown := false, hoverClicked := false, isCurrentSticky := true,
      contentVisible := true, glyphVisible := true, colorPickerVisible := true }
    true false rfl (by decide)

/-- C6 is refuted: a Strip does not ignore model color-change callbacks while
its drag monitor is active — its onDidChangeColor has no monitoring guard, so
a color change delivered mid-drag still performs a slider update. -/
theorem strip_ignores_monitoring_counterexample :
    stripOnDidChangeColor true hueGetValue { h := 0, s := 0, v := 0, a := 1 } =
      [SurfaceAction.updateSliderPosition 1]
    ∧ stripOnDidChangeColor true hueGetValue { h := 0, s := 0, v := 0, a := 1 } ≠ [] := by
  constructor
  · simp [stripOnDidChangeColor, hueGetValue, hueStripGetValue]
  · simp [stripOnDidChangeColor]

/-- C6 (amended): only the SaturationBox ignores model color-change callbacks
while its drag monitor is active (it performs no repaint then, and repaints
canvas and selection when not monitoring); a Strip performs a slider-position
update on every color-change callback regardless of its drag state. -/
theorem surface_monitoring_guard (c : HSVAq) (mon : Bool) (g : HSVAq → ℚ) :
    saturationBoxOnDidChangeColor true c = []
    ∧ saturationBoxOnDidChangeColor false c =
        [SurfaceAction.paintAction, SurfaceAction.paintSelection c.s c.v]
    ∧ stripOnDidChangeColor mon g c = [SurfaceAction.updateSliderPosition (g c)] :=
  ⟨rfl, rfl, rfl⟩

/-- C8 is refuted in its last part: the stored color of the standalone picker
is initialized at construction, so invoking updateEditorModel with no flush
ever delivered still applies an edit. -/
theorem standalone_edit_without_flush_counterexample :
    (standaloneStep (standaloneInit { r := 255, g := 0, b := 0, a := 1 })
        StandaloneEvent.invoke).edits = 1
    ∧ (standaloneStep (standaloneInit { r := 255, g := 0, b := 0, a := 1 })
        StandaloneEvent.invoke).everFlushed = false := by
  decide

/-- The stored color of a standalone picker stays set along any event
sequence starting from a state where it is set. -/
theorem standalone_color_isSome (s : StandaloneState)
    (hs : s.color.isSome = true) (es : List StandaloneEvent) :
    ((es.foldl standaloneStep s).color).isSome = true := by
  induction es generalizing s with
  | nil => exact hs
  | cons e rest ih =>
    simp only [List.foldl_cons]
    apply ih
    cases e with
    | didChangeColor c => exact hs
    | colorFlushed c => simp [standaloneStep]
    | contentChange => exact hs
    | invoke =>
      cases hc : s.color with
      | none => rw [hc] at hs; simp at hs
      | some c => simp [standaloneStep, hc]

/-- C8 (amended): in the standalone variant the presentation re-fetch runs on
every color-change event; a flushed event only records the flushed color; the
edit count changes only on an explicit updateEditorModel invocation; such an
invocation applies the edit whenever the stored color exists — and the stored
color exists after every event sequence from construction on, because it is
initialized to the model's initial color, so no prior flush is required. -/
theorem standalone_deferred_edit (s : StandaloneState) (c : RGBAq)
    (e : StandaloneEvent) (hs : s.color.isSome = true) :
    standaloneStep s (StandaloneEvent.colorFlushed c) =
      { s with color := some c, everFlushed := true }
    ∧ standaloneStep s (StandaloneEvent.didChangeColor c) =
      { s with fetches := s.fetches + 1 }
    ∧ ((standaloneStep s e).edits ≠ s.edits → e = StandaloneEvent.invoke)
    ∧ standaloneStep s StandaloneEvent.invoke =
      { s with fetches := s.fetches + 1, edits := s.edits + 1 }
    ∧ ∀ (es : List StandaloneEvent) (c0 : RGBAq),
        ((es.foldl standaloneStep (standaloneInit c0)).color).isSome = true := by
  obtain ⟨c', hc⟩ := Option.isSome_iff_exists.mp hs
  refine ⟨rfl, rfl, ?_, ?_, ?_⟩
  · intro hne
    cases e with
    | didChangeColor c => simp [standaloneStep] at hne
    | colorFlushed c => simp [standaloneStep] at hne
    | contentChange => simp [standaloneStep] at hne
    | invoke => rfl
  · simp [standaloneStep, hc]
  · intro es c0
    exact standalone_color_isSome (standaloneInit c0) rfl es

/-- Witness for the amended C8: invoking right after construction applies
the edit. -/
theorem standalone_deferred_edit_witness :
    standaloneStep (standaloneInit { r := 255, g := 0, b := 0, a := 1 })
        StandaloneEvent.invoke =
      { standaloneInit { r := 255, g := 0, b := 0, a := 1 } with
          fetches := (standaloneInit { r := 255, g := 0, b := 0, a := 1 }).fetches + 1,
          edits := (standaloneInit { r := 255, g := 0, b := 0, a := 1 }).edits + 1 } :=
  (standalone_deferred_edit (standaloneInit { r := 255, g := 0, b := 0, a := 1 })
    { r := 255, g := 0, b := 0, a := 1 } StandaloneEvent.invoke rfl).2.2.2.1

/-- C9: the accessible-view providers throw exactly when neither an active
nor a focused code editor exists; with an editor present but no hover
controller on it, getProvider resolves to undefined instead of throwing. -/
theorem accessible_view_editor_error
    (mk : CodeEditor → HoverCtl → AccessibleProvider)
    (activeEditor focusedEditor : Option CodeEditor)
    (controllerOf : CodeEditor → Option HoverCtl) (e : CodeEditor)
    (hctl : controllerOf e = none) :
    accessibleGetProvider mk none none controllerOf =
      Except.error "No active or focused code editor"
    ∧ ((∃ msg, accessibleGetProvider mk activeEditor focusedEditor controllerOf =
        Except.error msg) ↔ activeEditor = none ∧ focusedEditor = none)
    ∧ accessibleGetProvider mk (some e) focusedEditor controllerOf = Except.ok none
    ∧ accessibleGetProvider mk none (some e) controllerOf = Except.ok none := by
  refine ⟨rfl, ?_, ?_, ?_⟩
  · constructor
    · rintro ⟨msg, hmsg⟩
      cases ha : activeEditor with
      | some e1 =>
        rw [ha] at hmsg
        cases hc : controllerOf e1 <;> simp [accessibleGetProvider, hc] at hmsg
      | none =>
        cases hf : focusedEditor with
        | some e2 =>
          rw [ha, hf] at hmsg
          cases hc : controllerOf e2 <;> simp [accessibleGetProvider, hc] at hmsg
        | none => exact ⟨rfl, rfl⟩
    · rintro ⟨h1, h2⟩
      subst h1; subst h2
      exact ⟨"No active or focused code editor", rfl⟩
  · simp [accessibleGetProvider, hctl]
  · simp [accessibleGetProvider, hctl]

/-- Witness for C9: an active editor with no hover controller resolves to
undefined. -/
theorem accessible_view_editor_error_witness :
    accessibleGetProvider (fun e ctl => { editorId := e.id, controllerId := ctl.id })
      (some { id := 0 }) none (fun _ => none) = Except.ok none :=
  (accessible_view_editor_error (fun e ctl => { editorId := e.id, controllerId := ctl.id })
    (some { id := 0 }) none (fun _ => none) { id := 0 } rfl).2.2.1

/-- C10: for a strip value in the unit interval, the hue stored by
onDidHueChange lies in the half-open interval from 0 inclusive to 360
exclusive (the computed hue is remapped to 0 when it equals 360); composing
with HueStrip.getValue is the identity on values strictly above 0, and the
boundary input 0 reads back as 1. -/
theorem hue_mapping_round_trip (value : ℚ) (h0 : 0 ≤ value) (h1 : value ≤ 1) :
    (0 ≤ onDidHueChangeStoredHue value ∧ onDidHueChangeStoredHue value < 360)
    ∧ (0 < value → hueStripGetValue (onDidHueChangeStoredHue value) = value)
    ∧ hueStripGetValue (onDidHueChangeStoredHue 0) = 1 := by
  refine ⟨?_, ?_, ?_⟩
  · by_cases hv : (1 - value) * 360 = 360
    · simp [onDidHueChangeStoredHue, hv]
    · have hvne : value ≠ 0 := by
        intro h; apply hv; rw [h]; ring
      have hvpos : 0 < value := lt_of_le_of_ne h0 (Ne.symm hvne)
      simp only [onDidHueChangeStoredHue, hv, if_false]
      constructor
      · nlinarith
      · nlinarith
  · intro hpos
    have hv : (1 - value) * 360 ≠ 360 := by
      intro he; nlinarith
    simp only [onDidHueChangeStoredHue, hv, if_false, hueStripGetValue]
    field_simp
  · norm_num [onDidHueChangeStoredHue, hueStripGetValue]

/-- Witness for C10 at value one half (hue 180). -/
theorem hue_mapping_round_trip_witness :
    (0 ≤ onDidHueChangeStoredHue (1 / 2) ∧ onDidHueChangeStoredHue (1 / 2) < 360)
    ∧ (0 < (1 / 2 : ℚ) → hueStripGetValue (onDidHueChangeStoredHue (1 / 2)) = 1 / 2)
    ∧ hueStripGetValue (onDidHueChangeStoredHue 0) = 1 :=
  hue_mapping_round_trip (1 / 2) (by norm_num) (by norm_num)

/-- C7 is refuted at a degenerate measurement: with measured width 0 and
pointer offset 0 the saturation expression divides 0 by 0, so the clamp is
applied to NaN and the emitted value is NaN, which is not in the unit
interval. -/
theorem clamp_unit_interval_counterexample :
    saturationFromPointer 0 0 = JSNum.nan
    ∧ inUnit (saturationFromPointer 0 0) = false := by
  decide

/-- Clamping a finite value lands in the unit interval. -/
theorem inUnit_clamp01_fin (q : ℚ) : inUnit (clamp01 (JSNum.fin q)) = true := by
  simp only [clamp01, jsMinOne, jsMaxZero, inUnit, decide_eq_true_eq]
  exact ⟨le_max_left 0 _, max_le zero_le_one (min_le_left 1 q)⟩

/-- C7 (amended): for every pointer coordinate, including coordinates outside
the surface's bounding box, and every nonzero measured width and height, the
normalized values a SaturationBox and a Strip compute lie in the closed unit
interval. (With a zero measured dimension and a zero offset the computed
value is NaN instead.) -/
theorem pointer_values_clamped (left top width height : ℚ)
    (hw : width ≠ 0) (hh : height ≠ 0) :
    inUnit (saturationFromPointer left width) = true
    ∧ inUnit (valueFromPointer top height) = true
    ∧ inUnit (stripValueFromTop top height) = true := by
  refine ⟨?_, ?_, ?_⟩
  · simp only [saturationFromPointer, jsDivFin, hw, if_false]
    exact inUnit_clamp01_fin _
  · simp only [valueFromPointer, jsDivFin, hw, hh, if_false, jsOneSub]
    exact inUnit_clamp01_fin _
  · simp only [stripValueFromTop, jsDivFin, hw, hh, if_false, jsOneSub]
    exact inUnit_clamp01_fin _

/-- Witness for the amended C7 at concrete coordinates and dimensions
(including an out-of-box coordinate for the strip). -/
theorem pointer_values_clamped_witness :
    inUnit (saturationFromPointer 5 10) = true
    ∧ inUnit (valueFromPointer 25 10) = true
    ∧ inUnit (stripValueFromTop 25 10) = true :=
  pointer_values_clamped 5 25 10 10 (by norm_num) (by norm_num)

/-- A trace of non-commit events followed by one commit event has the commit
event exactly once, last, with everything before it a non-commit event. -/
theorem dragTraceShape {α : Type} (pre : List α) (last : α) (p : α → Bool)
    (hpre : pre.all (fun e => !p e) = true) (hl : p last = true) :
    ((pre ++ [last]).getLast? = some last)
    ∧ List.countP p (pre ++ [last]) = 1
    ∧ (pre ++ [last]).dropLast.all (fun e => !p e) = true := by
  refine ⟨List.getLast?_concat _, ?_, ?_⟩
  · rw [List.countP_append]
    have h0 : List.countP p pre = 0 := by
      rw [List.countP_eq_zero]
      intro a ha
      have hmem := List.all_eq_true.mp hpre a ha
      simp only [Bool.not_eq_true'] at hmem
      simp [hmem]
    simp [h0, List.countP_cons, hl]
  · rw [List.dropLast_concat]
    exact hpre

/-- C3: over every drag sequence on a SaturationBox or a Strip the commit
event onColorFlushed is emitted exactly once, as the last event (on
pointer-up); every event before it, coming from the initial pointer-down or
from a monitored pointer-move, is an onDidChange preview event. -/
theorem drag_flush_only_on_pointer_up (targetIsSelection targetIsSlider : Bool)
    (downLeft downTop stripDown : ℚ) (moves : List (ℚ × ℚ)) (stripMoves : List ℚ)
    (width height stripHeight : ℚ) :
    (saturationBoxDragTrace true targetIsSelection downLeft downTop moves
        width height).getLast? = some BoxEvent.colorFlushed
    ∧ List.countP (fun e => isBoxFlushed e)
        (saturationBoxDragTrace true targetIsSelection downLeft downTop moves
          width height) = 1
    ∧ (saturationBoxDragTrace true targetIsSelection downLeft downTop moves
        width height).dropLast.all (fun e => !isBoxFlushed e) = true
    ∧ (stripDragTrace true targetIsSlider stripDown stripMoves
        stripHeight).getLast? = some StripEvent.colorFlushed
    ∧ List.countP (fun e => isStripFlushed e)
        (stripDragTrace true targetIsSlider stripDown stripMoves stripHeight) = 1
    ∧ (stripDragTrace true targetIsSlider stripDown stripMoves
        stripHeight).dropLast.all (fun e => !isStripFlushed e) = true := by
  have hbox : ((if targetIsSelection then []
        else [boxDidChangeEvent downLeft downTop width height])
      ++ moves.map (fun m => boxDidChangeEvent m.1 m.2 width height)).all
        (fun e => !isBoxFlushed e) = true := by
    rw [List.all_append]
    refine Bool.and_eq_true_iff.mpr ⟨?_, ?_⟩
    · cases targetIsSelection <;> simp [boxDidChangeEvent, isBoxFlushed]
    · rw [List.all_eq_true]
      intro x hx
      obtain ⟨m, _, hm⟩ := List.mem_map.mp hx
      rw [← hm]
      rfl
  have hstrip : ((if targetIsSlider then []
        else [StripEvent.didChange (stripValueFromTop stripDown stripHeight)])
      ++ stripMoves.map (fun t => StripEvent.didChange (stripValueFromTop t stripHeight))).all
        (fun e => !isStripFlushed e) = true := by
    rw [List.all_append]
    refine Bool.and_eq_true_iff.mpr ⟨?_, ?_⟩
    · cases targetIsSlider <;> simp [isStripFlushed]
    · rw [List.all_eq_true]
      intro x hx
      obtain ⟨m, _, hm⟩ := List.mem_map.mp hx
      rw [← hm]
      rfl
  have hshape := dragTraceShape _ BoxEvent.colorFlushed _ hbox rfl
  have hshape2 := dragTraceShape _ StripEvent.colorFlushed _ hstrip rfl
  rw [saturationBoxDragTrace, stripDragTrace]
  simp only [if_true]
  exact ⟨hshape.1, hshape.2.1, hshape.2.2, hshape2.1, hshape2.2.1, hshape2.2.2⟩
